import Mathlib

/-!
Shallow embedding of the residual-network assembly code in
`src/Models/ResNet.py` (classes `ResNetDeepBlock`, `ResNetBlock`, `ResNet`).

Tensors are modelled by their shapes (lists of dimension sizes); every
layer of the network is a partial shape transformer (`Option Shape`),
returning `none` exactly where the numeric library would raise a runtime
error (channel mismatch, zero-size convolution output, failed in-place
broadcast at the additive skip merge, wrong input rank).
-/

set_option autoImplicit false

namespace ResNetSpec

/-- A tensor shape: the list of dimension sizes, outermost first. -/
abbrev Shape := List Nat

/-- The layers used by the network, with their construction parameters
(as passed to `nn.Conv2d`, `nn.BatchNorm2d`, `nn.MaxPool2d`, `nn.ReLU`). -/
inductive Layer where
  | conv2d (inC outC k s p : Nat)
  | batchNorm2d (c : Nat)
  | maxPool2d (k s p : Nat)
  | relu
  deriving DecidableEq, Repr

/-- Shape semantics of a single layer on a 4-dimensional input
`[n, c, h, w]`.  A 2-d convolution or pooling with kernel `k`, stride
`s` and padding `p` maps a spatial size `d` to `(d + 2*p - k)/s + 1` and
fails when the kernel exceeds the padded input or the stride is zero; a
convolution or batch normalization also fails on a channel mismatch. -/
def Layer.apply : Layer → Shape → Option Shape
  | .conv2d inC outC k s p, [n, c, h, w] =>
      if 1 ≤ s ∧ c = inC ∧ k ≤ h + 2 * p ∧ k ≤ w + 2 * p then
        some [n, outC, (h + 2 * p - k) / s + 1, (w + 2 * p - k) / s + 1]
      else none
  | .batchNorm2d ch, [n, c, h, w] =>
      if c = ch then some [n, c, h, w] else none
  | .maxPool2d k s p, [n, c, h, w] =>
      if 1 ≤ s ∧ k ≤ h + 2 * p ∧ k ≤ w + 2 * p then
        some [n, c, (h + 2 * p - k) / s + 1, (w + 2 * p - k) / s + 1]
      else none
  | .relu, sh => some sh
  | _, _ => none

/-- `nn.Sequential`: run the layers in order, propagating failure. -/
def runLayers : List Layer → Shape → Option Shape
  | [], sh => some sh
  | l :: ls, sh => (l.apply sh).bind (runLayers ls)

/-- Trailing-dimension compatibility for an in-place addition
`x += identity` (arguments are the reversed shapes): every trailing
dimension of `identity` must equal the corresponding dimension of `x`
or be `1`, and `identity` may not have more dimensions than `x`. -/
def bcDims : List Nat → List Nat → Bool
  | [], _ => true
  | _ :: _, [] => false
  | a :: as, b :: bs => (a == b || a == 1) && bcDims as bs

/-- PyTorch's in-place tensor addition `x += identity`: succeeds (with
the shape of `x`) exactly when `identity` broadcasts into `x`'s shape;
otherwise the runtime raises a shape-mismatch error. -/
def addInPlace (x identity : Shape) : Option Shape :=
  if bcDims identity.reverse x.reverse then some x else none

/-- The `nn.Sequential` built for a skip-path projection: a single 1×1
convolution with the given stride and no padding, followed by batch
normalization (`ResNet.create_residual_layer`, both branches). -/
def downsampleLayers (inC outC stride : Nat) : List Layer :=
  [.conv2d inC outC 1 stride 0, .batchNorm2d outC]

/-- `ResNetBlock.__init__` stored state: channel widths, stride and the
optional `identity_downscale` projection `nn.Sequential`. -/
structure ResNetBlock where
  in_channels : Nat
  out_channels : Nat
  stride : Nat
  identity_downscale : Option (List Layer)
  deriving DecidableEq, Repr

/-- `self.conv_block_1`: 3×3 convolution (padding 1, the block's
stride), batch normalization, ReLU. -/
def ResNetBlock.conv_block_1 (b : ResNetBlock) : List Layer :=
  [.conv2d b.in_channels b.out_channels 3 b.stride 1,
   .batchNorm2d b.out_channels, .relu]

/-- `self.conv_block_2`: 3×3 convolution (padding 1, stride 1), batch
normalization — and no activation. -/
def ResNetBlock.conv_block_2 (b : ResNetBlock) : List Layer :=
  [.conv2d b.out_channels b.out_channels 3 1 1,
   .batchNorm2d b.out_channels]

/-- `ResNetBlock.forward`: run the two convolution blocks on `x`, run
the projection (when present) on the cloned identity, merge with an
in-place addition, apply ReLU. -/
def ResNetBlock.forward (b : ResNetBlock) (x : Shape) : Option Shape := do
  let x1 ← runLayers b.conv_block_1 x
  let x2 ← runLayers b.conv_block_2 x1
  let identity ←
    match b.identity_downscale with
    | some ds => runLayers ds x
    | none => some x
  let y ← addInPlace x2 identity
  Layer.relu.apply y

/-- `ResNetDeepBlock.__init__` stored state (field order as in the
Python constructor signature). -/
structure ResNetDeepBlock where
  in_channels : Nat
  intermediate_channels : Nat
  identity_downsample : Option (List Layer)
  stride : Nat
  deriving DecidableEq, Repr

/-- `self.expansion = 4`. -/
def ResNetDeepBlock.expansion (_ : ResNetDeepBlock) : Nat := 4

/-- `self.conv1`: 1×1, stride 1, to the intermediate width. -/
def ResNetDeepBlock.conv1 (b : ResNetDeepBlock) : Layer :=
  .conv2d b.in_channels b.intermediate_channels 1 1 0

/-- `self.bn1`. -/
def ResNetDeepBlock.bn1 (b : ResNetDeepBlock) : Layer :=
  .batchNorm2d b.intermediate_channels

/-- `self.conv2`: 3×3, the block's stride, padding 1. -/
def ResNetDeepBlock.conv2 (b : ResNetDeepBlock) : Layer :=
  .conv2d b.intermediate_channels b.intermediate_channels 3 b.stride 1

/-- `self.bn2`. -/
def ResNetDeepBlock.bn2 (b : ResNetDeepBlock) : Layer :=
  .batchNorm2d b.intermediate_channels

/-- `self.conv3`: 1×1, stride 1, expanding to `intermediate * 4`. -/
def ResNetDeepBlock.conv3 (b : ResNetDeepBlock) : Layer :=
  .conv2d b.intermediate_channels (b.intermediate_channels * b.expansion) 1 1 0

/-- `self.bn3`. -/
def ResNetDeepBlock.bn3 (b : ResNetDeepBlock) : Layer :=
  .batchNorm2d (b.intermediate_channels * b.expansion)

/-- `ResNetDeepBlock.forward`: conv1 → bn1 → relu → conv2 → bn2 → relu
→ conv3 → bn3, downsample the cloned identity when a projection was
supplied, merge with an in-place addition, apply ReLU. -/
def ResNetDeepBlock.forward (b : ResNetDeepBlock) (x : Shape) : Option Shape := do
  let x1 ← b.conv1.apply x
  let x2 ← b.bn1.apply x1
  let x3 ← Layer.relu.apply x2
  let x4 ← b.conv2.apply x3
  let x5 ← b.bn2.apply x4
  let x6 ← Layer.relu.apply x5
  let x7 ← b.conv3.apply x6
  let x8 ← b.bn3.apply x7
  let identity ←
    match b.identity_downsample with
    | some ds => runLayers ds x
    | none => some x
  let y ← addInPlace x8 identity
  Layer.relu.apply y

/-- The block class passed to `ResNet.__init__`; the Python code
dispatches on `block.__name__ == "ResNetDeepBlock"`. -/
inductive Variant where
  | Basic
  | Deep
  deriving DecidableEq, Repr

/-- Expansion factor of a variant: 1 for Basic blocks, 4 for Deep. -/
def Variant.expansion : Variant → Nat
  | .Basic => 1
  | .Deep => 4

/-- A constructed residual block of either class. -/
inductive Block where
  | basic : ResNetBlock → Block
  | deep : ResNetDeepBlock → Block
  deriving DecidableEq, Repr

/-- Forward pass of a constructed block. -/
def Block.forward : Block → Shape → Option Shape
  | .basic b, sh => b.forward sh
  | .deep b, sh => b.forward sh

/-- Input channel count the block was constructed with. -/
def Block.inC : Block → Nat
  | .basic b => b.in_channels
  | .deep b => b.in_channels

/-- Nominal width of the block (`out_channels` for Basic,
`intermediate_channels` for Deep). -/
def Block.width : Block → Nat
  | .basic b => b.out_channels
  | .deep b => b.intermediate_channels

/-- Output channel count of the block (width times expansion). -/
def Block.outC : Block → Nat
  | .basic b => b.out_channels
  | .deep b => b.intermediate_channels * 4

/-- Stride the block was constructed with. -/
def Block.strideOf : Block → Nat
  | .basic b => b.stride
  | .deep b => b.stride

/-- The optional skip-path projection stored in the block. -/
def Block.projection : Block → Option (List Layer)
  | .basic b => b.identity_downscale
  | .deep b => b.identity_downsample

/-- `nn.Sequential` of blocks: run them in order. -/
def runBlocks : List Block → Shape → Option Shape
  | [], sh => some sh
  | b :: bs, sh => (b.forward sh).bind (runBlocks bs)

/-- `ResNet.create_residual_layer`: returns the stage's block list and
the value of the mutable field `self.in_channels` after the call.

Deep branch: build an `identity_downsample` when `stride != 1` or
`self.in_channels != out_channels * 4`; first block gets
`self.in_channels`, the stride and the projection; `self.in_channels`
is set to `out_channels * 4`; `num_residual_blocks - 1` further blocks
get `(out_channels * 4, out_channels)` with defaults (stride 1, no
projection).

Basic branch: the first block's input width is derived from the output
width alone (`out_channels // 2` unless the width is 64); an
`identity_downscale` is built only when `stride != 1`;
`num_residual_blocks - 1` further blocks get
`(out_channels, out_channels)` with defaults; `self.in_channels` is
left unchanged.  The Python loop `range(num_residual_blocks - 1)` is
empty whenever `num_residual_blocks <= 1`, hence the `Int.toNat`. -/
def create_residual_layer (v : Variant) (self_in_channels out_channels : Nat)
    (num_residual_blocks : Int) (stride : Nat) : List Block × Nat :=
  match v with
  | .Deep =>
      let identity_downsample : Option (List Layer) :=
        if stride ≠ 1 ∨ self_in_channels ≠ out_channels * 4 then
          some (downsampleLayers self_in_channels (out_channels * 4) stride)
        else none
      let first : Block :=
        .deep ⟨self_in_channels, out_channels, identity_downsample, stride⟩
      let rest : List Block :=
        List.replicate (num_residual_blocks - 1).toNat
          (.deep ⟨out_channels * 4, out_channels, none, 1⟩)
      (first :: rest, out_channels * 4)
  | .Basic =>
      let in_channels : Nat :=
        if out_channels ≠ 64 then out_channels / 2 else out_channels
      let identity_downscale : Option (List Layer) :=
        if stride ≠ 1 then some (downsampleLayers in_channels out_channels stride)
        else none
      let first : Block :=
        .basic ⟨in_channels, out_channels, stride, identity_downscale⟩
      let rest : List Block :=
        List.replicate (num_residual_blocks - 1).toNat
          (.basic ⟨out_channels, out_channels, 1, none⟩)
      (first :: rest, self_in_channels)

/-- The assembled `ResNet` module: the stored sub-modules, plus the
final value of the mutable `self.in_channels` field. -/
structure ResNet where
  in_channels : Nat
  initial_layers : List Layer
  layer_64 : List Block
  layer_128 : List Block
  layer_256 : List Block
  layer_512 : List Block
  fc_in : Nat
  fc_out : Nat
  deriving DecidableEq, Repr

/-- `ResNet.__init__`: reads `layers[0] .. layers[3]` (an index error —
hence `none` — when the list is shorter; extra entries are ignored),
sets `self.in_channels = 64`, builds the stem
(7×7 conv stride 2 pad 3 → batch norm → 3×3 max-pool stride 2 pad 1 →
ReLU) mapping `in_channels → 64`, then the four stages at widths
64/128/256/512 with strides 1/2/2/2, threading `self.in_channels`, and
the classifier `nn.Linear(512 * 4 if deep else 512, num_classes)`. -/
def ResNet.construct (in_channels num_classes : Nat) (layers : List Int)
    (v : Variant) : Option ResNet :=
  match layers with
  | l0 :: l1 :: l2 :: l3 :: _ =>
      let r64 := create_residual_layer v 64 64 l0 1
      let r128 := create_residual_layer v r64.2 128 l1 2
      let r256 := create_residual_layer v r128.2 256 l2 2
      let r512 := create_residual_layer v r256.2 512 l3 2
      some
        { in_channels := r512.2
          initial_layers :=
            [.conv2d in_channels 64 7 2 3, .batchNorm2d 64,
             .maxPool2d 3 2 1, .relu]
          layer_64 := r64.1
          layer_128 := r128.1
          layer_256 := r256.1
          layer_512 := r512.1
          fc_in := if v = .Deep then 512 * 4 else 512
          fc_out := num_classes }
  | _ => none

/-- `nn.AdaptiveAvgPool2d((1, 1))`: collapse the spatial grid of a
4-dimensional input to a single cell. -/
def adaptive_avg_pool (sh : Shape) : Option Shape :=
  match sh with
  | [n, c, h, w] => if 1 ≤ h ∧ 1 ≤ w then some [n, c, 1, 1] else none
  | _ => none

/-- `torch.Tensor.squeeze` with no argument: drop every dimension of
size 1. -/
def squeeze (sh : Shape) : Shape :=
  sh.filter (fun d => d != 1)

/-- `nn.Linear(inF, outF)`: the last dimension must equal `inF` and is
replaced by `outF`; fails on a 0-dimensional input. -/
def linear (inF outF : Nat) (sh : Shape) : Option Shape :=
  match sh.reverse with
  | [] => none
  | d :: rest => if d = inF then some ((outF :: rest).reverse) else none

/-- `ResNet.forward`: stem, the four stages, global average pooling,
`x.squeeze()`, and the fully connected classifier. -/
def ResNet.forward (m : ResNet) (x : Shape) : Option Shape := do
  let x1 ← runLayers m.initial_layers x
  let x2 ← runBlocks m.layer_64 x1
  let x3 ← runBlocks m.layer_128 x2
  let x4 ← runBlocks m.layer_256 x3
  let x5 ← runBlocks m.layer_512 x4
  let x6 ← adaptive_avg_pool x5
  let x7 := squeeze x6
  linear m.fc_in m.fc_out x7

/-! ### Shape lemmas for the individual layers -/

lemma bcDims_refl (l : List Nat) : bcDims l l = true := by
  induction l with
  | nil => rfl
  | cons a as ih => simp [bcDims, ih]

lemma addInPlace_self (x : Shape) : addInPlace x x = some x := by
  simp [addInPlace, bcDims_refl]

lemma relu_apply (sh : Shape) : Layer.apply .relu sh = some sh := rfl

lemma addInPlace_cons4 (n1 c1 h1 w1 n2 c2 h2 w2 : Nat) :
    addInPlace [n1, c1, h1, w1] [n2, c2, h2, w2]
      = if ((w2 == w1 || w2 == 1) && ((h2 == h1 || h2 == 1)
            && ((c2 == c1 || c2 == 1) && ((n2 == n1 || n2 == 1) && true)))) then
          some [n1, c1, h1, w1]
        else none := rfl

lemma bn_apply (c n h w : Nat) :
    Layer.apply (.batchNorm2d c) [n, c, h, w] = some [n, c, h, w] := by
  simp [Layer.apply]

lemma conv3x3_s (ic oc s n h w : Nat) (hs : 1 ≤ s) (hh : 1 ≤ h) (hw : 1 ≤ w) :
    Layer.apply (.conv2d ic oc 3 s 1) [n, ic, h, w]
      = some [n, oc, (h - 1) / s + 1, (w - 1) / s + 1] := by
  have h3 : 3 ≤ h + 2 * 1 := by omega
  have w3 : 3 ≤ w + 2 * 1 := by omega
  have e1 : h + 2 * 1 - 3 = h - 1 := by omega
  have e2 : w + 2 * 1 - 3 = w - 1 := by omega
  simp [Layer.apply, hs, h3, w3, e1, e2]

lemma conv3x3_s1 (ic oc n h w : Nat) (hh : 1 ≤ h) (hw : 1 ≤ w) :
    Layer.apply (.conv2d ic oc 3 1 1) [n, ic, h, w] = some [n, oc, h, w] := by
  have e := conv3x3_s ic oc 1 n h w (le_refl 1) hh hw
  have e1 : (h - 1) / 1 + 1 = h := by omega
  have e2 : (w - 1) / 1 + 1 = w := by omega
  rw [e, e1, e2]

lemma conv1x1_s (ic oc s n h w : Nat) (hs : 1 ≤ s) (hh : 1 ≤ h) (hw : 1 ≤ w) :
    Layer.apply (.conv2d ic oc 1 s 0) [n, ic, h, w]
      = some [n, oc, (h - 1) / s + 1, (w - 1) / s + 1] := by
  have h1 : 1 ≤ h + 2 * 0 := by omega
  have w1 : 1 ≤ w + 2 * 0 := by omega
  have e1 : h + 2 * 0 - 1 = h - 1 := by omega
  have e2 : w + 2 * 0 - 1 = w - 1 := by omega
  simp [Layer.apply, hs, h1, w1, e1, e2]
  all_goals omega

lemma conv1x1_s1 (ic oc n h w : Nat) (hh : 1 ≤ h) (hw : 1 ≤ w) :
    Layer.apply (.conv2d ic oc 1 1 0) [n, ic, h, w] = some [n, oc, h, w] := by
  have e := conv1x1_s ic oc 1 n h w (le_refl 1) hh hw
  have e1 : (h - 1) / 1 + 1 = h := by omega
  have e2 : (w - 1) / 1 + 1 = w := by omega
  rw [e, e1, e2]

lemma conv7x7_s2 (ic oc n h w : Nat) (hh : 1 ≤ h) (hw : 1 ≤ w) :
    Layer.apply (.conv2d ic oc 7 2 3) [n, ic, h, w]
      = some [n, oc, (h - 1) / 2 + 1, (w - 1) / 2 + 1] := by
  have h7 : 7 ≤ h + 2 * 3 := by omega
  have w7 : 7 ≤ w + 2 * 3 := by omega
  have e1 : h + 2 * 3 - 7 = h - 1 := by omega
  have e2 : w + 2 * 3 - 7 = w - 1 := by omega
  simp [Layer.apply, h7, w7, e1, e2]

lemma maxpool3_s2 (c n h w : Nat) (hh : 1 ≤ h) (hw : 1 ≤ w) :
    Layer.apply (.maxPool2d 3 2 1) [n, c, h, w]
      = some [n, c, (h - 1) / 2 + 1, (w - 1) / 2 + 1] := by
  have h3 : 3 ≤ h + 2 * 1 := by omega
  have w3 : 3 ≤ w + 2 * 1 := by omega
  have e1 : h + 2 * 1 - 3 = h - 1 := by omega
  have e2 : w + 2 * 1 - 3 = w - 1 := by omega
  simp [Layer.apply, h3, w3, e1, e2]

/-! ### Shape lemmas for the blocks -/

lemma basic_block_noproj (oc n h w : Nat) (hh : 1 ≤ h) (hw : 1 ≤ w) :
    ResNetBlock.forward ⟨oc, oc, 1, none⟩ [n, oc, h, w] = some [n, oc, h, w] := by
  have c1 := conv3x3_s1 oc oc n h w hh hw
  simp [ResNetBlock.forward, ResNetBlock.conv_block_1, ResNetBlock.conv_block_2,
        runLayers, c1, bn_apply, relu_apply, addInPlace_self]

lemma basic_block_proj (ic oc s n h w : Nat) (hs : 1 ≤ s) (hh : 1 ≤ h) (hw : 1 ≤ w) :
    ResNetBlock.forward ⟨ic, oc, s, some (downsampleLayers ic oc s)⟩ [n, ic, h, w]
      = some [n, oc, (h - 1) / s + 1, (w - 1) / s + 1] := by
  have hb1 : 1 ≤ (h - 1) / s + 1 := Nat.le_add_left 1 _
  have hb2 : 1 ≤ (w - 1) / s + 1 := Nat.le_add_left 1 _
  have c1 := conv3x3_s ic oc s n h w hs hh hw
  have c2 := conv3x3_s1 oc oc n ((h - 1) / s + 1) ((w - 1) / s + 1) hb1 hb2
  have d1 := conv1x1_s ic oc s n h w hs hh hw
  simp [ResNetBlock.forward, ResNetBlock.conv_block_1, ResNetBlock.conv_block_2,
        downsampleLayers, runLayers, c1, c2, d1, bn_apply, relu_apply,
        addInPlace_self]

lemma deep_block_noproj (mid n h w : Nat) (hh : 1 ≤ h) (hw : 1 ≤ w) :
    ResNetDeepBlock.forward ⟨mid * 4, mid, none, 1⟩ [n, mid * 4, h, w]
      = some [n, mid * 4, h, w] := by
  have c1 := conv1x1_s1 (mid * 4) mid n h w hh hw
  have c2 := conv3x3_s1 mid mid n h w hh hw
  have c3 := conv1x1_s1 mid (mid * 4) n h w hh hw
  simp [ResNetDeepBlock.forward, ResNetDeepBlock.conv1, ResNetDeepBlock.bn1,
        ResNetDeepBlock.conv2, ResNetDeepBlock.bn2, ResNetDeepBlock.conv3,
        ResNetDeepBlock.bn3, ResNetDeepBlock.expansion,
        c1, c2, c3, bn_apply, relu_apply, addInPlace_self]

lemma deep_block_proj (ic mid s n h w : Nat) (hs : 1 ≤ s) (hh : 1 ≤ h) (hw : 1 ≤ w) :
    ResNetDeepBlock.forward ⟨ic, mid, some (downsampleLayers ic (mid * 4) s), s⟩
        [n, ic, h, w]
      = some [n, mid * 4, (h - 1) / s + 1, (w - 1) / s + 1] := by
  have hb1 : 1 ≤ (h - 1) / s + 1 := Nat.le_add_left 1 _
  have hb2 : 1 ≤ (w - 1) / s + 1 := Nat.le_add_left 1 _
  have c1 := conv1x1_s1 ic mid n h w hh hw
  have c2 := conv3x3_s mid mid s n h w hs hh hw
  have c3 := conv1x1_s1 mid (mid * 4) n ((h - 1) / s + 1) ((w - 1) / s + 1) hb1 hb2
  have d1 := conv1x1_s ic (mid * 4) s n h w hs hh hw
  simp [ResNetDeepBlock.forward, ResNetDeepBlock.conv1, ResNetDeepBlock.bn1,
        ResNetDeepBlock.conv2, ResNetDeepBlock.bn2, ResNetDeepBlock.conv3,
        ResNetDeepBlock.bn3, ResNetDeepBlock.expansion, downsampleLayers,
        runLayers, c1, c2, c3, d1, bn_apply, relu_apply, addInPlace_self]

/-! ### Stage lemmas -/

lemma runBlocks_replicate (k : Nat) (b : Block) (sh : Shape)
    (hb : b.forward sh = some sh) :
    runBlocks (List.replicate k b) sh = some sh := by
  induction k with
  | zero => rfl
  | succ m ih => simp [List.replicate_succ, runBlocks, hb, ih]

lemma crl_basic_snd (sin oc : Nat) (cnt : Int) (s : Nat) :
    (create_residual_layer .Basic sin oc cnt s).2 = sin := rfl

lemma crl_deep_snd (sin oc : Nat) (cnt : Int) (s : Nat) :
    (create_residual_layer .Deep sin oc cnt s).2 = oc * 4 := rfl

lemma deep_stage (sin oc : Nat) (cnt : Int) (s n h w : Nat)
    (hs : 1 ≤ s) (hh : 1 ≤ h) (hw : 1 ≤ w) :
    runBlocks (create_residual_layer .Deep sin oc cnt s).1 [n, sin, h, w]
      = some [n, oc * 4, (h - 1) / s + 1, (w - 1) / s + 1] := by
  have hb1 : 1 ≤ (h - 1) / s + 1 := Nat.le_add_left 1 _
  have hb2 : 1 ≤ (w - 1) / s + 1 := Nat.le_add_left 1 _
  have hrest := runBlocks_replicate (cnt - 1).toNat
    (.deep ⟨oc * 4, oc, none, 1⟩) [n, oc * 4, (h - 1) / s + 1, (w - 1) / s + 1]
    (deep_block_noproj oc n ((h - 1) / s + 1) ((w - 1) / s + 1) hb1 hb2)
  by_cases hc : s ≠ 1 ∨ sin ≠ oc * 4
  · simp only [create_residual_layer, if_pos hc, runBlocks,
      Block.forward, deep_block_proj sin oc s n h w hs hh hw, Option.bind]
    exact hrest
  · push_neg at hc
    obtain ⟨hs1, hsin⟩ := hc
    subst hs1; subst hsin
    have e1 : (h - 1) / 1 + 1 = h := by omega
    have e2 : (w - 1) / 1 + 1 = w := by omega
    rw [e1, e2] at hrest ⊢
    simp only [create_residual_layer, runBlocks, Block.forward]
    rw [if_neg (by simp)]
    simp only [deep_block_noproj oc n h w hh hw, Option.bind]
    exact hrest

lemma basic_stage (sin oc : Nat) (cnt : Int) (s n h w : Nat)
    (hs : 1 ≤ s) (hh : 1 ≤ h) (hw : 1 ≤ w) (hok : s ≠ 1 ∨ oc = 64) :
    runBlocks (create_residual_layer .Basic sin oc cnt s).1
        [n, if oc ≠ 64 then oc / 2 else oc, h, w]
      = some [n, oc, (h - 1) / s + 1, (w - 1) / s + 1] := by
  have hb1 : 1 ≤ (h - 1) / s + 1 := Nat.le_add_left 1 _
  have hb2 : 1 ≤ (w - 1) / s + 1 := Nat.le_add_left 1 _
  have hrest := runBlocks_replicate (cnt - 1).toNat
    (.basic ⟨oc, oc, 1, none⟩) [n, oc, (h - 1) / s + 1, (w - 1) / s + 1]
    (basic_block_noproj oc n ((h - 1) / s + 1) ((w - 1) / s + 1) hb1 hb2)
  by_cases hs1 : s = 1
  · have hoc : oc = 64 := by tauto
    subst hs1; subst hoc
    have e1 : (h - 1) / 1 + 1 = h := by omega
    have e2 : (w - 1) / 1 + 1 = w := by omega
    rw [e1, e2] at hrest ⊢
    simp only [create_residual_layer, ne_eq, not_true_eq_false, if_false,
      ite_self, runBlocks, Block.forward]
    rw [basic_block_noproj 64 n h w hh hw]
    simpa using hrest
  · simp only [create_residual_layer, if_pos hs1, runBlocks, Block.forward]
    rw [basic_block_proj (if oc ≠ 64 then oc / 2 else oc) oc s n h w hs hh hw]
    simpa using hrest

lemma stem_shape (ic n h w : Nat) (hh : 1 ≤ h) (hw : 1 ≤ w) :
    runLayers [Layer.conv2d ic 64 7 2 3, .batchNorm2d 64, .maxPool2d 3 2 1, .relu]
        [n, ic, h, w]
      = some [n, 64, (h - 1) / 2 / 2 + 1, (w - 1) / 2 / 2 + 1] := by
  have c1 := conv7x7_s2 ic 64 n h w hh hw
  have hb1 : 1 ≤ (h - 1) / 2 + 1 := Nat.le_add_left 1 _
  have hb2 : 1 ≤ (w - 1) / 2 + 1 := Nat.le_add_left 1 _
  have p1 := maxpool3_s2 64 n ((h - 1) / 2 + 1) ((w - 1) / 2 + 1) hb1 hb2
  simp only [Nat.add_sub_cancel] at p1
  simp [runLayers, c1, bn_apply, relu_apply, p1]

lemma basic_stage_s1_64 (sin : Nat) (cnt : Int) (n h w : Nat)
    (hh : 1 ≤ h) (hw : 1 ≤ w) :
    runBlocks (create_residual_layer .Basic sin 64 cnt 1).1 [n, 64, h, w]
      = some [n, 64, h, w] := by
  have e := basic_stage sin 64 cnt 1 n h w (le_refl 1) hh hw (Or.inr rfl)
  rw [if_neg (by decide)] at e
  have e1 : (h - 1) / 1 + 1 = h := by omega
  have e2 : (w - 1) / 1 + 1 = w := by omega
  rw [e1, e2] at e
  exact e

lemma basic_stage128 (sin : Nat) (cnt : Int) (n h w : Nat)
    (hh : 1 ≤ h) (hw : 1 ≤ w) :
    runBlocks (create_residual_layer .Basic sin 128 cnt 2).1 [n, 64, h, w]
      = some [n, 128, (h - 1) / 2 + 1, (w - 1) / 2 + 1] := by
  have e := basic_stage sin 128 cnt 2 n h w (by omega) hh hw (Or.inl (by omega))
  rw [if_pos (by decide)] at e
  norm_num at e
  exact e

lemma basic_stage256 (sin : Nat) (cnt : Int) (n h w : Nat)
    (hh : 1 ≤ h) (hw : 1 ≤ w) :
    runBlocks (create_residual_layer .Basic sin 256 cnt 2).1 [n, 128, h, w]
      = some [n, 256, (h - 1) / 2 + 1, (w - 1) / 2 + 1] := by
  have e := basic_stage sin 256 cnt 2 n h w (by omega) hh hw (Or.inl (by omega))
  rw [if_pos (by decide)] at e
  norm_num at e
  exact e

lemma basic_stage512 (sin : Nat) (cnt : Int) (n h w : Nat)
    (hh : 1 ≤ h) (hw : 1 ≤ w) :
    runBlocks (create_residual_layer .Basic sin 512 cnt 2).1 [n, 256, h, w]
      = some [n, 512, (h - 1) / 2 + 1, (w - 1) / 2 + 1] := by
  have e := basic_stage sin 512 cnt 2 n h w (by omega) hh hw (Or.inl (by omega))
  rw [if_pos (by decide)] at e
  norm_num at e
  exact e

lemma deep_stage64 (sin : Nat) (cnt : Int) (n h w : Nat)
    (hh : 1 ≤ h) (hw : 1 ≤ w) :
    runBlocks (create_residual_layer .Deep sin 64 cnt 1).1 [n, sin, h, w]
      = some [n, 256, h, w] := by
  have e := deep_stage sin 64 cnt 1 n h w (le_refl 1) hh hw
  have e1 : (h - 1) / 1 + 1 = h := by omega
  have e2 : (w - 1) / 1 + 1 = w := by omega
  rw [e1, e2] at e
  norm_num at e
  exact e

lemma deep_stage_s2 (sin oc : Nat) (cnt : Int) (n h w : Nat)
    (hh : 1 ≤ h) (hw : 1 ≤ w) :
    runBlocks (create_residual_layer .Deep sin oc cnt 2).1 [n, sin, h, w]
      = some [n, oc * 4, (h - 1) / 2 + 1, (w - 1) / 2 + 1] :=
  deep_stage sin oc cnt 2 n h w (by omega) hh hw

/-! ### Claim theorems -/

/-- Claim C1 (counterexample): the claim fails at batch size 1.  The
trailing `x.squeeze()` in `ResNet.forward` drops every size-1 dimension,
including the batch dimension, so the network built with
`(3, 36, [2,2,2,2], Basic)` applied to a `(1, 3, 224, 224)` input returns
shape `[36]`, not `[1, 36]` as the claim requires. -/
theorem C1_counterexample :
    ((ResNet.construct 3 36 [2, 2, 2, 2] .Basic).bind
        (fun m => m.forward [1, 3, 224, 224]) = some [36])
    ∧ some [36] ≠ some ([1, 36] : Shape) := by
  exact ⟨rfl, by decide⟩

/-- Claim C1 (amended): for every valid configuration and every batch size
`N ≥ 2`, applying `ResNet.forward` to an input of shape
`(N, input_channels, H, W)` with `H, W ≥ 32` returns a tensor of shape
`(N, num_classes)`; at batch size 1 the trailing squeeze also removes the
batch dimension.  In particular the `(16, 3, 224, 224)` scenarios of the
claim hold. -/
theorem C1_thm (ic nc n h w : Nat) (a b c d : Int) (v : Variant)
    (hn : 2 ≤ n) (hh : 32 ≤ h) (hw : 32 ≤ w) :
    (ResNet.construct ic nc [a, b, c, d] v).bind (fun m => m.forward [n, ic, h, w])
      = some [n, nc] := by
  have hh1 : 1 ≤ h := by omega
  have hw1 : 1 ≤ w := by omega
  have hn1 : (n != 1) = true := by simp [bne_iff_ne]; omega
  cases v with
  | Basic =>
      simp [ResNet.construct, crl_basic_snd, ResNet.forward,
            stem_shape ic n h w hh1 hw1, Option.bind,
            basic_stage_s1_64, basic_stage128, basic_stage256, basic_stage512,
            Nat.le_add_left,
            adaptive_avg_pool, squeeze, List.filter, hn1, linear]
  | Deep =>
      simp [ResNet.construct, crl_deep_snd, ResNet.forward,
            stem_shape ic n h w hh1 hw1, Option.bind,
            deep_stage64, deep_stage_s2,
            Nat.le_add_left,
            adaptive_avg_pool, squeeze, List.filter, hn1, linear]

/-- Claim C1 (witness): the amended theorem at the concrete scenario
`construct(3, 36, [2,2,2,2], Basic)` on a `(16, 3, 224, 224)` input. -/
theorem C1_witness :
    (ResNet.construct 3 36 [2, 2, 2, 2] .Basic).bind
        (fun m => m.forward [16, 3, 224, 224]) = some [16, 36] :=
  C1_thm 3 36 16 224 224 2 2 2 2 .Basic (by decide) (by decide) (by decide)

/-- Claim C2 (counterexample): the claimed iff fails in the Basic branch of
`ResNet.create_residual_layer`, which tests only the stride.  At stride 1
with running input-channel count 64 and output width 128 the claim's
condition holds (`64 ≠ 128 * expansion`, the Basic expansion being 1), yet
the first block is built with no projection. -/
theorem C2_counterexample :
    ((create_residual_layer .Basic 64 128 2 1).1.head?.map Block.projection
        = some none)
    ∧ ((1 : Nat) ≠ 1 ∨ (64 : Nat) ≠ 128 * Variant.Basic.expansion) := by
  exact ⟨rfl, Or.inr (by decide)⟩

/-- Claim C2 (amended): in the Deep branch the first block's projection is
built iff `stride ≠ 1` or the running input-channel count differs from
`width * 4`, and it is a single 1×1 convolution with the stage's stride
followed by normalization mapping the running count to `width * 4`; in the
Basic branch the projection is built iff `stride ≠ 1` alone (a channel
mismatch at stride 1 is not checked), and it maps the derived input width
(`width / 2`, or `width` when the width is 64) to `width`. -/
theorem C2_thm (sin oc : Nat) (cnt : Int) (s : Nat) :
    ((create_residual_layer .Deep sin oc cnt s).1.head?.map Block.projection
        = some (if s ≠ 1 ∨ sin ≠ oc * 4 then
            some (downsampleLayers sin (oc * 4) s) else none))
    ∧ ((create_residual_layer .Basic sin oc cnt s).1.head?.map Block.projection
        = some (if s ≠ 1 then
            some (downsampleLayers (if oc ≠ 64 then oc / 2 else oc) oc s)
          else none)) := by
  exact ⟨rfl, rfl⟩

/-- Claim C3: the assembled network consists of the stem
(7×7 convolution stride 2, normalization, 3×3 max-pool stride 2,
activation) mapping `input_channels` to 64; four stages of widths
64, 128, 256, 512 with first-block strides 1, 2, 2, 2; global average
pooling to a single spatial cell; and a classifier whose input width is
`512 * 4` for the Deep variant and 512 for Basic, mapping to
`num_classes` outputs. -/
theorem C3_thm (ic nc : Nat) (a b c d : Int) (v : Variant) :
    ((ResNet.construct ic nc [a, b, c, d] v).map (fun m =>
        (m.initial_layers,
         m.layer_64.head?.map (fun blk => (blk.width, blk.strideOf)),
         m.layer_128.head?.map (fun blk => (blk.width, blk.strideOf)),
         m.layer_256.head?.map (fun blk => (blk.width, blk.strideOf)),
         m.layer_512.head?.map (fun blk => (blk.width, blk.strideOf)),
         m.fc_in, m.fc_out))
      = some ([Layer.conv2d ic 64 7 2 3, .batchNorm2d 64, .maxPool2d 3 2 1, .relu],
              some (64, 1), some (128, 2), some (256, 2), some (512, 2),
              if v = .Deep then 512 * 4 else 512, nc))
    ∧ (∀ n c hs ws : Nat,
        adaptive_avg_pool [n, c, hs + 1, ws + 1] = some [n, c, 1, 1]) := by
  refine ⟨by cases v <;> rfl, ?_⟩
  intro n c hs ws
  simp [adaptive_avg_pool, Nat.le_add_left]

/-- Claim C4: the Deep block applies 1×1 conv → normalize → activate →
3×3 conv at the given stride → normalize → activate → 1×1 conv expanding
to `intermediate * 4` → normalize → add the (projected) identity →
activate; its output has `out_channels * 4` channels at spatial
resolution reduced by the stride, both when a standard projection is
supplied and when the block is an interior one (stride 1, matching
channels, no projection). -/
theorem C4_thm (ic mid s n h w : Nat) (hs : 1 ≤ s) (hh : 1 ≤ h) (hw : 1 ≤ w) :
    (ResNetDeepBlock.forward ⟨ic, mid, some (downsampleLayers ic (mid * 4) s), s⟩
        [n, ic, h, w]
      = some [n, mid * 4, (h - 1) / s + 1, (w - 1) / s + 1])
    ∧ (ResNetDeepBlock.forward ⟨mid * 4, mid, none, 1⟩ [n, mid * 4, h, w]
      = some [n, mid * 4, h, w])
    ∧ (∀ blk : ResNetDeepBlock,
        blk.conv1 = .conv2d blk.in_channels blk.intermediate_channels 1 1 0
        ∧ blk.conv2 = .conv2d blk.intermediate_channels blk.intermediate_channels
            3 blk.stride 1
        ∧ blk.conv3 = .conv2d blk.intermediate_channels
            (blk.intermediate_channels * 4) 1 1 0) :=
  ⟨deep_block_proj ic mid s n h w hs hh hw,
   deep_block_noproj mid n h w hh hw,
   fun _ => ⟨rfl, rfl, rfl⟩⟩

/-- Claim C4 (witness): the theorem at `intermediate = 64`, stride 2, on a
`(2, 64, 8, 8)` input. -/
theorem C4_witness :
    (ResNetDeepBlock.forward ⟨64, 64, some (downsampleLayers 64 (64 * 4) 2), 2⟩
        [2, 64, 8, 8] = some [2, 256, 4, 4])
    ∧ (ResNetDeepBlock.forward ⟨64 * 4, 64, none, 1⟩ [2, 64 * 4, 8, 8]
      = some [2, 256, 8, 8])
    ∧ (∀ blk : ResNetDeepBlock,
        blk.conv1 = .conv2d blk.in_channels blk.intermediate_channels 1 1 0
        ∧ blk.conv2 = .conv2d blk.intermediate_channels blk.intermediate_channels
            3 blk.stride 1
        ∧ blk.conv3 = .conv2d blk.intermediate_channels
            (blk.intermediate_channels * 4) 1 1 0) :=
  C4_thm 64 64 2 2 8 8 (by decide) (by decide) (by decide)

/-- Claim C5: the Basic block applies two 3×3-convolution-plus-
normalization stages with an activation only after the first (the second
stage's layer list ends with normalization, no activation), adds the
identity path (a no-op, or the projection when provided), activates the
sum and returns it; consequently it maps `(N, in, H, W)` to
`(N, out, H', W')` with the stride's spatial reduction when the standard
projection is supplied, and preserves the shape for an interior block. -/
theorem C5_thm (ic oc s n h w : Nat) (hs : 1 ≤ s) (hh : 1 ≤ h) (hw : 1 ≤ w) :
    (ResNetBlock.forward ⟨ic, oc, s, some (downsampleLayers ic oc s)⟩ [n, ic, h, w]
      = some [n, oc, (h - 1) / s + 1, (w - 1) / s + 1])
    ∧ (ResNetBlock.forward ⟨oc, oc, 1, none⟩ [n, oc, h, w] = some [n, oc, h, w])
    ∧ (∀ blk : ResNetBlock,
        blk.conv_block_1 = [.conv2d blk.in_channels blk.out_channels 3 blk.stride 1,
          .batchNorm2d blk.out_channels, .relu]
        ∧ blk.conv_block_2 = [.conv2d blk.out_channels blk.out_channels 3 1 1,
          .batchNorm2d blk.out_channels]) :=
  ⟨basic_block_proj ic oc s n h w hs hh hw,
   basic_block_noproj oc n h w hh hw,
   fun _ => ⟨rfl, rfl⟩⟩

/-- Claim C5 (witness): the theorem at `in = 64`, `out = 128`, stride 2,
on a `(2, 64, 8, 8)` input. -/
theorem C5_witness :
    (ResNetBlock.forward ⟨64, 128, 2, some (downsampleLayers 64 128 2)⟩ [2, 64, 8, 8]
      = some [2, 128, 4, 4])
    ∧ (ResNetBlock.forward ⟨128, 128, 1, none⟩ [2, 128, 8, 8]
      = some [2, 128, 8, 8])
    ∧ (∀ blk : ResNetBlock,
        blk.conv_block_1 = [.conv2d blk.in_channels blk.out_channels 3 blk.stride 1,
          .batchNorm2d blk.out_channels, .relu]
        ∧ blk.conv_block_2 = [.conv2d blk.out_channels blk.out_channels 3 1 1,
          .batchNorm2d blk.out_channels]) :=
  C5_thm 64 128 2 2 8 8 (by decide) (by decide) (by decide)

/-- Claim C6 (counterexample): the claim fails as stated.  A Basic block
built with mismatched channel widths (`in = 1`, `out = 64`) and no
projection does not fail at the additive merge: the identity's size-1
channel dimension broadcasts in place, and the block silently returns a
result. -/
theorem C6_counterexample :
    ResNetBlock.forward ⟨1, 64, 1, none⟩ [16, 1, 8, 8] = some [16, 64, 8, 8] := rfl

/-- Claim C6 (amended): a Basic block constructed with stride 2 and no
projection path fails with a shape-mismatch error at the additive merge
on every input whose height (or, symmetrically, width) is at least 2;
only when every mismatched identity dimension has size 1 (a 1×1 spatial
input, or a size-1 input channel count) does the merge silently
broadcast instead. -/
theorem C6_thm (c n h w : Nat) (hh : 2 ≤ h) (hw : 1 ≤ w) :
    ResNetBlock.forward ⟨c, c, 2, none⟩ [n, c, h, w] = none := by
  have hh1 : 1 ≤ h := by omega
  have c1 := conv3x3_s c c 2 n h w (by omega) hh1 hw
  have hb1 : 1 ≤ (h - 1) / 2 + 1 := Nat.le_add_left 1 _
  have hb2 : 1 ≤ (w - 1) / 2 + 1 := Nat.le_add_left 1 _
  have c2 := conv3x3_s1 c c n ((h - 1) / 2 + 1) ((w - 1) / 2 + 1) hb1 hb2
  have hne : (h == (h - 1) / 2 + 1 || h == 1) = false := by
    simp only [Bool.or_eq_false_iff, beq_eq_false_iff_ne, ne_eq]
    omega
  simp [ResNetBlock.forward, ResNetBlock.conv_block_1, ResNetBlock.conv_block_2,
        runLayers, c1, c2, bn_apply, relu_apply, addInPlace_cons4, hne]

/-- Claim C6 (witness): the amended theorem at a stride-2 block of width
64 on a `(16, 64, 224, 224)` input. -/
theorem C6_witness :
    ResNetBlock.forward ⟨64, 64, 2, none⟩ [16, 64, 224, 224] = none :=
  C6_thm 64 16 224 224 (by decide) (by decide)

/-- Claim C7 (counterexample): the claim fails: no configuration
validation exists.  Constructing with a per-stage block count of 0
(below 1) succeeds instead of raising a ConfigurationError. -/
theorem C7_counterexample :
    (ResNet.construct 3 36 [0, 2, 2, 2] .Basic).isSome = true := rfl

/-- Claim C7 (amended): construction fails — with a Python IndexError,
not a dedicated ConfigurationError — exactly when the
`per_stage_block_counts` list has fewer than 4 entries, and this failure
occurs at construction time; longer lists (extra entries ignored), block
counts below 1 and the variant dispatch are not validated and raise
nothing. -/
theorem C7_thm (ic nc : Nat) (ls : List Int) (v : Variant) :
    ResNet.construct ic nc ls v = none ↔ ls.length < 4 := by
  match ls with
  | [] => simp [ResNet.construct]
  | [_] => simp [ResNet.construct]
  | [_, _] => simp [ResNet.construct]
  | [_, _, _] => simp [ResNet.construct]
  | _ :: _ :: _ :: _ :: _ =>
      simp only [ResNet.construct, List.length_cons]
      constructor
      · intro hc
        exact absurd hc (by simp)
      · intro hl
        omega

/-- Claim C8: in every stage built by `ResNet.create_residual_layer`
(either variant), each block after the first has stride 1, no projection
path, and input channel count equal to its output channel count, namely
the stage's width times the variant's expansion factor. -/
theorem C8_thm (v : Variant) (sin oc : Nat) (cnt : Int) (s : Nat) :
    ∀ blk ∈ (create_residual_layer v sin oc cnt s).1.tail,
      blk.strideOf = 1 ∧ blk.projection = none ∧ blk.inC = blk.outC
      ∧ blk.inC = oc * v.expansion := by
  intro blk hblk
  cases v <;>
    · simp only [create_residual_layer, List.tail_cons] at hblk
      have hb := List.eq_of_mem_replicate hblk
      subst hb
      simp [Block.strideOf, Block.projection, Block.inC, Block.outC,
            Variant.expansion]

/-- Claim C8 (witness): the theorem at the Basic stage of width 128 with
count 2 and stride 2; the second block is `(128, 128)` with stride 1 and
no projection. -/
theorem C8_witness :
    (Block.basic ⟨128, 128, 1, none⟩).strideOf = 1
    ∧ (Block.basic ⟨128, 128, 1, none⟩).projection = none
    ∧ (Block.basic ⟨128, 128, 1, none⟩).inC = (Block.basic ⟨128, 128, 1, none⟩).outC
    ∧ (Block.basic ⟨128, 128, 1, none⟩).inC = 128 * Variant.Basic.expansion :=
  C8_thm .Basic 64 128 2 2 (Block.basic ⟨128, 128, 1, none⟩) (by decide)

/-- Claim C9: in the Basic branch the stage builder derives the first
block's input-channel count from the output width alone — half the
width when the width is not 64, the width itself when it is — and
leaves the running `self.in_channels` bookkeeping untouched (the
returned running count equals the one passed in, for every value passed
in). -/
theorem C9_thm (sin oc : Nat) (cnt : Int) (s : Nat) :
    ((create_residual_layer .Basic sin oc cnt s).1.head?.map Block.inC
        = some (if oc ≠ 64 then oc / 2 else oc))
    ∧ (create_residual_layer .Basic sin oc cnt s).2 = sin :=
  ⟨rfl, rfl⟩

/-- Claim C10: for every block count `c` (a Python integer, possibly
zero or negative), the stage builder returns exactly `max 1 c` blocks:
the first block is unconditional and the loop adds `c - 1` more, the
loop being empty when `c ≤ 1`. -/
theorem C10_thm (v : Variant) (sin oc : Nat) (cnt : Int) (s : Nat) :
    ((create_residual_layer v sin oc cnt s).1.length : Int) = max 1 cnt := by
  cases v <;> simp [create_residual_layer] <;> omega

end ResNetSpec
